import Mathlib

/-!
Verification of the guest-init program (`src/services/guest-image/init/guest-init.c`).

The program is PID 1 of a microVM guest.  It optionally layers a
copy-on-write overlay filesystem on top of the read-only root
(`setup_overlay`), then launches and supervises the guest workload and a
vsock bridge (`start_services`).

Shallow embedding: the kernel-visible state is a `World` record (existing
files and directories, the mount table, the log, an event trace of the
syscalls issued, the working directory, the environment variables).  The
outcomes of fallible syscalls that depend on the outside world (mount,
pivot_root, chdir, fork, execv, lazy unmount, rmdir, mkdir) are decided by
a `Sys` oracle; plain `umount` of a mounted target is modelled as the
normal-path kernel behaviour of removing the most recent mount at that
target.  Each C function is transcribed as a state-passing Lean function.
-/

namespace GuestInit

/-- Constant `OVERLAY_DEV` from the source: the overlay block device path. -/
def OVERLAY_DEV : String := "/dev/vdb"

/-- Constant `OVERLAY_MNT` from the source: the staging mount path for the overlay disk. -/
def OVERLAY_MNT : String := "/mnt/overlay"

/-- Constant `MERGED_ROOT` from the source: the merged-root (union mount) path. -/
def MERGED_ROOT : String := "/mnt/merged"

/-- Constant `OLD_ROOT` from the source. -/
def OLD_ROOT : String := "/mnt/merged/oldroot"

/-- Default `SHELL_VARIANT` compile-time constant. -/
def SHELL_VARIANT : String := "busybox"

/-- The `MS_REMOUNT` mount flag (value from `<sys/mount.h>`). -/
def MS_REMOUNT : Nat := 32

/-- One entry of the mount table. -/
structure Mnt where
  src : String
  target : String
  fstype : String
  opts : String
deriving DecidableEq, Repr

/-- Trace of the state-changing syscalls the program issues, newest first. -/
inductive Event where
  | mounted (src target fstype : String) (flags : Nat) (opts : String)
  | unmounted (target : String)
  | detached (target : String)
  | pivoted (newRoot putOld : String)
  | changedDir (path : String)
  | removedDir (path : String)
  | spawned (path : String) (argv : List String) (pid : Int)
  | waited (pid : Int)
  | parked
deriving DecidableEq, Repr

/-- The kernel-visible state the program manipulates. -/
structure World where
  /-- Paths (device nodes, binaries, ...) that `stat` finds. -/
  files : List String
  /-- Existing directories. -/
  dirs : List String
  /-- The mount table, most recent mount first. -/
  mounts : List Mnt
  /-- Log lines written to stderr, newest first. -/
  log : List String
  /-- Trace of issued syscalls, newest first. -/
  events : List Event
  /-- Current working directory. -/
  cwd : String
  /-- Whether `pivot_root` has succeeded. -/
  rootPivoted : Bool
  /-- Process environment variables, newest binding first. -/
  envVars : List (String × String)
deriving DecidableEq, Repr

/-- Oracle for the outcomes of fallible syscalls. -/
structure Sys where
  /-- Whether `mkdir` of a not-yet-existing path succeeds. -/
  mkdirOk : String → Bool
  /-- Whether a `mount` call with these arguments succeeds. -/
  mountOk : String → String → String → Nat → String → Bool
  /-- Whether `pivot_root` succeeds. -/
  pivotOk : Bool
  /-- Whether `chdir` to a path succeeds. -/
  chdirOk : String → Bool
  /-- Whether the lazy unmount `umount2(..., MNT_DETACH)` succeeds. -/
  detachOk : Bool
  /-- Whether `rmdir` succeeds. -/
  rmdirOk : Bool
  /-- The pid `fork` returns when spawning this path (negative = fork failure). -/
  forkPid : String → Int
  /-- Whether `execv` of this path succeeds in the child. -/
  execOk : String → Bool
  /-- Exit status of the command when `execv` succeeds. -/
  exitStatus : String → Nat
  /-- Fact of the environment: whether the spawned workload process ever
  terminates.  When it does not, the blocking `waitpid` on it never
  returns. -/
  workloadExits : Bool

/-- Transcription of `log_line`: append a diagnostic line to the log. -/
def log_line (w : World) (msg : String) : World :=
  { w with log := msg :: w.log }

/-- Transcription of `ensure_dir`: `mkdir`, tolerating `EEXIST` silently; any other failure
is only logged. -/
def ensure_dir (sys : Sys) (w : World) (p : String) (mode : Nat) : World :=
  if p ∈ w.dirs then w
  else if sys.mkdirOk p then { w with dirs := p :: w.dirs }
  else log_line w ("mkdir(" ++ p ++ ") failed")

/-- The `mount` syscall: on success (and unless remounting) the new mount
is pushed onto the mount table; `MS_REMOUNT` changes no table entry. -/
def mount (sys : Sys) (w : World) (src target fstype : String) (flags : Nat)
    (opts : String) : Bool × World :=
  let w := { w with events := Event.mounted src target fstype flags opts :: w.events }
  if sys.mountOk src target fstype flags opts then
    if flags == MS_REMOUNT then (true, w)
    else (true, { w with mounts := ⟨src, target, fstype, opts⟩ :: w.mounts })
  else (false, w)

/-- Remove the most recent mount at a target from the mount table. -/
def removeMount : List Mnt → String → List Mnt
  | [], _ => []
  | m :: ms, t => if m.target = t then ms else m :: removeMount ms t

/-- The `umount` syscall on a target (normal-path kernel behaviour:
the most recent mount at the target is removed). -/
def umount (w : World) (target : String) : World :=
  { w with mounts := removeMount w.mounts target,
           events := Event.unmounted target :: w.events }

/-- The syscall `umount2(..., MNT_DETACH)`: lazy unmount, may fail (e.g. `EINVAL`). -/
def umount2_detach (sys : Sys) (w : World) (target : String) : Bool × World :=
  let w := { w with events := Event.detached target :: w.events }
  if sys.detachOk then (true, { w with mounts := removeMount w.mounts target })
  else (false, w)

/-- The `pivot_root` syscall. -/
def pivot_root (sys : Sys) (w : World) (newRoot putOld : String) : Bool × World :=
  let w := { w with events := Event.pivoted newRoot putOld :: w.events }
  if sys.pivotOk then (true, { w with rootPivoted := true })
  else (false, w)

/-- The `chdir` syscall. -/
def chdir (sys : Sys) (w : World) (p : String) : Bool × World :=
  let w := { w with events := Event.changedDir p :: w.events }
  if sys.chdirOk p then (true, { w with cwd := p })
  else (false, w)

/-- The `rmdir` syscall (result ignored by the program). -/
def rmdir (sys : Sys) (w : World) (p : String) : World :=
  let w := { w with events := Event.removedDir p :: w.events }
  if sys.rmdirOk then { w with dirs := w.dirs.erase p } else w

/-- The call `setenv` with overwrite. -/
def setenv (w : World) (k v : String) : World :=
  { w with envVars := (k, v) :: w.envVars }

/-- Transcription of `spawn`: fork and exec.  A fork failure is logged and reported as `-1`;
otherwise the (positive) child pid is returned — `execv` runs in the child
and its failure is invisible to the parent here. -/
def spawn (sys : Sys) (w : World) (path : String) (argv : List String) :
    Int × World :=
  let pid := sys.forkPid path
  let w := { w with events := Event.spawned path argv pid :: w.events }
  if pid < 0 then (-1, log_line w "fork() failed")
  else (pid, w)

/-- Exit status of the child of `spawn`: the status of the command itself when
`execv` succeeds, otherwise the sentinel `_exit(127)`. -/
def child_exit_status (sys : Sys) (path : String) : Nat :=
  if sys.execOk path then sys.exitStatus path else 127

/-- Transcription of `run_wait`: spawn and block until the child exits, returning its
status (or `-1` when the fork failed). -/
def run_wait (sys : Sys) (w : World) (path : String) (argv : List String) :
    Int × World :=
  let r := spawn sys w path argv
  if r.1 < 0 then (-1, r.2)
  else
    let w := { r.2 with events := Event.waited r.1 :: r.2.events }
    ((child_exit_status sys path : Int), w)

/-- Transcription of `file_exists` via `stat`. -/
def file_exists (w : World) (path : String) : Bool :=
  path ∈ w.files

/-- Transcription of `should_use_overlay`: existence of the overlay device is the sole
trigger for overlay mode. -/
def should_use_overlay (w : World) : Bool :=
  file_exists w OVERLAY_DEV

/-- String `upper_dir` as built by `snprintf` in `setup_overlay`. -/
def upper_dir : String := OVERLAY_MNT ++ "/upper"

/-- String `work_dir` as built by `snprintf` in `setup_overlay`. -/
def work_dir : String := OVERLAY_MNT ++ "/work"

/-- String `overlay_opts` as built by `snprintf` in `setup_overlay`: the options
string handed to the overlayfs mount. -/
def overlay_opts : String :=
  "lowerdir=/,upperdir=" ++ upper_dir ++ ",workdir=" ++ work_dir

/-- String `oldroot_path` as built by `snprintf` in `setup_overlay`. -/
def oldroot_path : String := MERGED_ROOT ++ "/oldroot"

/-- Transcription of `setup_overlay`: mount the overlay disk, build upper/work dirs, mount
the overlayfs union, pivot the root onto it; on any failure unwind the
mounts performed so far and return `false`. -/
def setup_overlay (sys : Sys) (w : World) : Bool × World :=
  let w := log_line w ("[init] overlay device detected at " ++ OVERLAY_DEV)
  let w := ensure_dir sys w "/mnt" 0o755
  let w := ensure_dir sys w OVERLAY_MNT 0o755
  let w := ensure_dir sys w MERGED_ROOT 0o755
  let w := log_line w "[init] mounting overlay disk"
  let r := mount sys w OVERLAY_DEV OVERLAY_MNT "ext4" 0 ""
  if r.1 = false then
    (false, log_line r.2 "[init] failed to mount overlay disk")
  else
    let w := ensure_dir sys r.2 upper_dir 0o755
    let w := ensure_dir sys w work_dir 0o755
    let w := log_line w ("[init] mounting overlayfs: " ++ overlay_opts)
    let r2 := mount sys w "overlay" MERGED_ROOT "overlay" 0 overlay_opts
    if r2.1 = false then
      let w := log_line r2.2 "[init] failed to mount overlayfs"
      let w := umount w OVERLAY_MNT
      (false, w)
    else
      let w := ensure_dir sys r2.2 oldroot_path 0o755
      let w := log_line w "[init] pivoting root to overlayfs"
      let rp := pivot_root sys w MERGED_ROOT oldroot_path
      if rp.1 = false then
        let w := log_line rp.2 "[init] pivot_root failed"
        let w := umount w MERGED_ROOT
        let w := umount w OVERLAY_MNT
        (false, w)
      else
        let rc := chdir sys rp.2 "/"
        let w := if rc.1 then rc.2 else log_line rc.2 "[init] chdir(/) failed"
        let w := log_line w "[init] unmounting old root"
        let rd := umount2_detach sys w "/oldroot"
        let w := if rd.1 then rd.2
                 else log_line rd.2 "[init] umount oldroot failed (non-fatal)"
        let w := rmdir sys w "/oldroot"
        let w := log_line w "[init] overlayfs setup complete - root is now copy-on-write"
        (true, w)

/-- Outcome of the overlay transition (the `TransitionOutcome` of the spec). -/
inductive TransitionOutcome where
  | applied
  | skipped
deriving DecidableEq, Repr

/-- The overlay transition `attempt()`: probe for the device
(`should_use_overlay`) and, when present, run `setup_overlay`
(the `if (should_use_overlay())` dispatch of `main`). -/
def attempt (sys : Sys) (w : World) : TransitionOutcome × World :=
  if should_use_overlay w then
    let r := setup_overlay sys w
    (if r.1 then TransitionOutcome.applied else TransitionOutcome.skipped, r.2)
  else (TransitionOutcome.skipped, w)

/-- The three virtual-filesystem mounts issued by `main` (each failure is
only logged). -/
def mount_virtual_filesystems (sys : Sys) (w : World) : World :=
  let r1 := mount sys w "proc" "/proc" "proc" 0 ""
  let w := if r1.1 then r1.2 else log_line r1.2 "mount /proc failed"
  let r2 := mount sys w "sysfs" "/sys" "sysfs" 0 ""
  let w := if r2.1 then r2.2 else log_line r2.2 "mount /sys failed"
  let r3 := mount sys w "devtmpfs" "/dev" "devtmpfs" 0 ""
  if r3.1 then r3.2 else log_line r3.2 "mount /dev failed"

/-- The overlay branch of `main` (lines 220–240): run the transition; on
`Applied` re-issue the virtual-filesystem mounts; when the device was found
but setup failed, try to remount `/` read-write (failure only logged); when
no device exists, just log and continue in legacy mode. -/
def overlay_phase (sys : Sys) (w : World) : World :=
  if should_use_overlay w then
    let r := setup_overlay sys w
    if r.1 then
      let w := log_line r.2 "[init] remounting virtual filesystems in new root"
      mount_virtual_filesystems sys w
    else
      let w := log_line r.2 "[init] overlay setup failed, continuing with read-only root"
      let rm := mount sys w "" "/" "" MS_REMOUNT ""
      if rm.1 then rm.2
      else log_line rm.2 "[init] remount rw failed (continuing anyway)"
  else
    log_line w "[init] no overlay device, using legacy mode (direct rootfs)"

/-- Argument vector of `ip link set lo up`. -/
def ip_lo_up_argv : List String := ["ip", "link", "set", "lo", "up"]

/-- Argument vector of `ip addr add 127.0.0.1/8 dev lo`. -/
def ip_lo_addr_argv : List String :=
  ["ip", "addr", "add", "127.0.0.1/8", "dev", "lo"]

/-- Path of the workload (guest-agent) interpreter binary. -/
def NODE_BIN : String := "/usr/local/bin/node"

/-- Path of the vsock bridge binary. -/
def SOCAT_BIN : String := "/usr/bin/socat"

/-- Argument vector of the workload process. -/
def node_argv : List String := ["node", "/opt/guest-agent/dist/index.js"]

/-- Argument vector of the bridge process. -/
def socat_argv : List String :=
  ["socat", "VSOCK-LISTEN:8080,fork", "TCP:127.0.0.1:8080"]

/-- Transcription of `start_services`: bring up loopback, launch the workload and the
bridge, wait on the workload when it was spawned, then park forever (the
terminal `for(;;) sleep(3600);` loop is recorded as the final `parked`
event; its non-termination is modelled by `supStep`). -/
def start_services (sys : Sys) (w : World) : World :=
  let w := log_line w "[init] bringing up loopback"
  let w := (run_wait sys w "/sbin/ip" ip_lo_up_argv).2
  let w := (run_wait sys w "/sbin/ip" ip_lo_addr_argv).2
  let w := log_line w ("[init] shell variant: " ++ SHELL_VARIANT)
  let w := setenv w "JAIL_SHELL" SHELL_VARIANT
  let w := log_line w "[init] starting guest-agent"
  let w := setenv w "PORT" "8080"
  let w := (chdir sys w "/opt/guest-agent").2
  let rn := spawn sys w NODE_BIN node_argv
  let node_pid := rn.1
  let w := if node_pid > 0 then log_line rn.2 "[init] guest-agent pid" else rn.2
  let w := log_line w "[init] starting socat vsock->tcp"
  let rs := spawn sys w SOCAT_BIN socat_argv
  let w := if rs.1 > 0 then log_line rs.2 "[init] socat pid" else rs.2
  let w :=
    if node_pid > 0 then
      let w := { w with events := Event.waited node_pid :: w.events }
      log_line w "[init] guest-agent exited"
    else w
  { w with events := Event.parked :: w.events }

/-- Transcription of `main` (the `run()` sequence of the spec): baseline dirs, `PATH`, virtual
filesystems, the overlay phase, then `start_services`.  The `return 0`
after `start_services` is unreachable (see `supStep`). -/
def main_run (sys : Sys) (w : World) : World :=
  let w := ensure_dir sys w "/var" 0o755
  let w := ensure_dir sys w "/var/log" 0o755
  let w := log_line w "[init] pid=1 starting"
  let w := setenv w "PATH" "/usr/local/sbin:/usr/local/bin:/usr/sbin:/usr/bin:/sbin:/bin"
  let w := ensure_dir sys w "/proc" 0o555
  let w := ensure_dir sys w "/sys" 0o555
  let w := ensure_dir sys w "/dev" 0o755
  let w := mount_virtual_filesystems sys w
  let w := overlay_phase sys w
  start_services sys w

/-- Control-flow phases of `start_services`, as a small-step machine.
`waitingWorkload` is the program blocked inside `waitpid` on the workload.
`exited` would mean the PID-1 process returned/exited; no phase of the
source reaches it (there is no path out of the `for(;;)` loop and no
`exit` call). -/
inductive SupPhase where
  | notStarted
  | networkUp
  | workloadStarted (nodePid : Int)
  | bridgeStarted (nodePid : Int)
  | waitingWorkload
  | workloadExited
  | parked
  | exited
deriving DecidableEq, Repr

/-- One control-flow step of `start_services`: loopback, workload spawn,
bridge spawn, then — when the workload was spawned — the blocking
`waitpid`, which completes only if the workload ever terminates, and
finally the parking loop, which steps to itself forever. -/
def supStep (sys : Sys) : SupPhase → SupPhase
  | SupPhase.notStarted => SupPhase.networkUp
  | SupPhase.networkUp => SupPhase.workloadStarted (sys.forkPid NODE_BIN)
  | SupPhase.workloadStarted p => SupPhase.bridgeStarted p
  | SupPhase.bridgeStarted p =>
      if p > 0 then
        (if sys.workloadExits then SupPhase.workloadExited
         else SupPhase.waitingWorkload)
      else SupPhase.parked
  | SupPhase.waitingWorkload =>
      if sys.workloadExits then SupPhase.workloadExited
      else SupPhase.waitingWorkload
  | SupPhase.workloadExited => SupPhase.parked
  | SupPhase.parked => SupPhase.parked
  | SupPhase.exited => SupPhase.exited

/-- Run `n` control-flow steps of the supervisor machine. -/
def supRun (sys : Sys) : Nat → SupPhase → SupPhase
  | 0, s => s
  | n + 1, s => supRun sys n (supStep sys s)

/-- The filesystem contents visible in the mount namespace: the directory
tree together with the mount table. -/
def fsState (w : World) : List String × List Mnt :=
  (w.dirs, w.mounts)

/-- A world with nothing mounted, no directories, no files: used as a
concrete evaluation point. -/
def emptyWorld : World :=
  { files := [], dirs := [], mounts := [], log := [], events := [],
    cwd := "/", rootPivoted := false, envVars := [] }

/-- A world in which the overlay device exists and nothing else does. -/
def vdbWorld : World :=
  { emptyWorld with files := [OVERLAY_DEV] }

/-- An oracle on which every syscall succeeds, every fork returns pid 1,
every executed command exits with status 0 and the workload terminates. -/
def allOk : Sys :=
  { mkdirOk := fun _ => true, mountOk := fun _ _ _ _ _ => true,
    pivotOk := true, chdirOk := fun _ => true, detachOk := true,
    rmdirOk := true, forkPid := fun _ => 1, execOk := fun _ => true,
    exitStatus := fun _ => 0, workloadExits := true }

/-- Like `allOk` except that `pivot_root` fails. -/
def pivotFailSys : Sys := { allOk with pivotOk := false }

/-- Like `allOk` except that the overlayfs union mount fails
(for example, a missing overlay driver). -/
def unionFailSys : Sys := { allOk with mountOk := fun s _ _ _ _ => !(s == "overlay") }

/-- Like `allOk` except that the workload binary is missing, so `execv`
of it fails in the child. -/
def nodeMissingSys : Sys := { allOk with execOk := fun p => !(p == NODE_BIN) }

/-- Like `allOk` except that `chdir("/")` fails after the pivot. -/
def chdirFailSys : Sys := { allOk with chdirOk := fun p => !(p == "/") }

/-- Like `allOk` except that the workload process, once launched, never
terminates (the normal case for an HTTP-server workload). -/
def workloadForeverSys : Sys := { allOk with workloadExits := false }

/-- The supervisor machine can reach phase `s` from its start. -/
def reaches (sys : Sys) (s : SupPhase) : Prop :=
  ∃ n, supRun sys n SupPhase.notStarted = s

end GuestInit

namespace GuestInit

/-! Projection lemmas: how each syscall transcription acts on the fields
of the world. -/

@[simp] lemma log_line_events (w : World) (s : String) :
    (log_line w s).events = w.events := rfl

@[simp] lemma log_line_mounts (w : World) (s : String) :
    (log_line w s).mounts = w.mounts := rfl

@[simp] lemma log_line_dirs (w : World) (s : String) :
    (log_line w s).dirs = w.dirs := rfl

@[simp] lemma log_line_log (w : World) (s : String) :
    (log_line w s).log = s :: w.log := rfl

@[simp] lemma ensure_dir_events (sys : Sys) (w : World) (p : String) (m : Nat) :
    (ensure_dir sys w p m).events = w.events := by
  unfold ensure_dir
  split
  · rfl
  · split <;> rfl

@[simp] lemma ensure_dir_mounts (sys : Sys) (w : World) (p : String) (m : Nat) :
    (ensure_dir sys w p m).mounts = w.mounts := by
  unfold ensure_dir
  split
  · rfl
  · split <;> rfl

@[simp] lemma mount_fst (sys : Sys) (w : World) (s t f : String) (fl : Nat)
    (o : String) : (mount sys w s t f fl o).1 = sys.mountOk s t f fl o := by
  unfold mount
  split
  · split <;> simp_all
  · simp_all

@[simp] lemma mount_snd_events (sys : Sys) (w : World) (s t f : String)
    (fl : Nat) (o : String) :
    (mount sys w s t f fl o).2.events = Event.mounted s t f fl o :: w.events := by
  unfold mount
  split
  · split <;> rfl
  · rfl

@[simp] lemma mount_snd_log (sys : Sys) (w : World) (s t f : String)
    (fl : Nat) (o : String) : (mount sys w s t f fl o).2.log = w.log := by
  unfold mount
  split
  · split <;> rfl
  · rfl

lemma mount_snd_mounts_true (sys : Sys) (w : World) (s t f : String)
    (o : String) (h : sys.mountOk s t f 0 o = true) :
    (mount sys w s t f 0 o).2.mounts = Mnt.mk s t f o :: w.mounts := by
  unfold mount
  simp [h, MS_REMOUNT]

lemma mount_snd_mounts_false (sys : Sys) (w : World) (s t f : String) (fl : Nat)
    (o : String) (h : sys.mountOk s t f fl o = false) :
    (mount sys w s t f fl o).2.mounts = w.mounts := by
  unfold mount
  simp [h]

@[simp] lemma umount_events (w : World) (t : String) :
    (umount w t).events = Event.unmounted t :: w.events := rfl

@[simp] lemma umount_mounts (w : World) (t : String) :
    (umount w t).mounts = removeMount w.mounts t := rfl

@[simp] lemma umount_log (w : World) (t : String) : (umount w t).log = w.log := rfl

@[simp] lemma pivot_root_fst (sys : Sys) (w : World) (a b : String) :
    (pivot_root sys w a b).1 = sys.pivotOk := by
  unfold pivot_root
  split <;> simp_all

@[simp] lemma pivot_root_events (sys : Sys) (w : World) (a b : String) :
    (pivot_root sys w a b).2.events = Event.pivoted a b :: w.events := by
  unfold pivot_root
  split <;> rfl

@[simp] lemma pivot_root_mounts (sys : Sys) (w : World) (a b : String) :
    (pivot_root sys w a b).2.mounts = w.mounts := by
  unfold pivot_root
  split <;> rfl

@[simp] lemma pivot_root_log (sys : Sys) (w : World) (a b : String) :
    (pivot_root sys w a b).2.log = w.log := by
  unfold pivot_root
  split <;> rfl

@[simp] lemma chdir_fst (sys : Sys) (w : World) (p : String) :
    (chdir sys w p).1 = sys.chdirOk p := by
  unfold chdir
  split <;> simp_all

@[simp] lemma chdir_events (sys : Sys) (w : World) (p : String) :
    (chdir sys w p).2.events = Event.changedDir p :: w.events := by
  unfold chdir
  split <;> rfl

@[simp] lemma chdir_mounts (sys : Sys) (w : World) (p : String) :
    (chdir sys w p).2.mounts = w.mounts := by
  unfold chdir
  split <;> rfl

@[simp] lemma chdir_log (sys : Sys) (w : World) (p : String) :
    (chdir sys w p).2.log = w.log := by
  unfold chdir
  split <;> rfl

@[simp] lemma umount2_detach_events (sys : Sys) (w : World) (t : String) :
    (umount2_detach sys w t).2.events = Event.detached t :: w.events := by
  unfold umount2_detach
  split <;> rfl

@[simp] lemma umount2_detach_fst (sys : Sys) (w : World) (t : String) :
    (umount2_detach sys w t).1 = sys.detachOk := by
  unfold umount2_detach
  split <;> simp_all

@[simp] lemma umount2_detach_log (sys : Sys) (w : World) (t : String) :
    (umount2_detach sys w t).2.log = w.log := by
  unfold umount2_detach
  split <;> rfl

@[simp] lemma rmdir_events (sys : Sys) (w : World) (p : String) :
    (rmdir sys w p).events = Event.removedDir p :: w.events := by
  unfold rmdir
  split <;> rfl

@[simp] lemma rmdir_mounts (sys : Sys) (w : World) (p : String) :
    (rmdir sys w p).mounts = w.mounts := by
  unfold rmdir
  split <;> rfl

@[simp] lemma rmdir_log (sys : Sys) (w : World) (p : String) :
    (rmdir sys w p).log = w.log := by
  unfold rmdir
  split <;> rfl

@[simp] lemma spawn_snd_events (sys : Sys) (w : World) (p : String)
    (argv : List String) :
    (spawn sys w p argv).2.events
      = Event.spawned p argv (sys.forkPid p) :: w.events := by
  simp only [spawn]
  split <;> rfl

@[simp] lemma spawn_fst (sys : Sys) (w : World) (p : String) (a : List String) :
    (spawn sys w p a).1 = if sys.forkPid p < 0 then -1 else sys.forkPid p := by
  simp only [spawn]
  split <;> simp_all

@[simp] lemma setenv_events (w : World) (k v : String) :
    (setenv w k v).events = w.events := rfl

/-! Lemmas about the supervisor control-flow machine. -/

lemma supRun_parked (sys : Sys) (n : Nat) :
    supRun sys n SupPhase.parked = SupPhase.parked := by
  induction n with
  | zero => rfl
  | succ n ih => simpa [supRun, supStep] using ih

lemma supStep_ne_exited (sys : Sys) (s : SupPhase) (h : s ≠ SupPhase.exited) :
    supStep sys s ≠ SupPhase.exited := by
  cases s
  case exited => exact absurd rfl h
  all_goals simp only [supStep]
  all_goals repeat' split
  all_goals simp

lemma supRun_ne_exited (sys : Sys) (n : Nat) :
    ∀ s, s ≠ SupPhase.exited → supRun sys n s ≠ SupPhase.exited := by
  induction n with
  | zero => intro s h; simpa [supRun] using h
  | succ n ih =>
      intro s h
      exact ih _ (supStep_ne_exited sys s h)

lemma supRun_reach_of_exits (sys : Sys) (n : Nat)
    (hx : sys.workloadExits = true) :
    supRun sys (n + 5) SupPhase.notStarted = SupPhase.parked := by
  have h4 : supRun sys (n + 5) SupPhase.notStarted
      = supRun sys (n + 1)
          (supStep sys (SupPhase.bridgeStarted (sys.forkPid NODE_BIN))) := rfl
  rw [h4]
  by_cases hp : sys.forkPid NODE_BIN > 0
  · have hs : supStep sys (SupPhase.bridgeStarted (sys.forkPid NODE_BIN))
        = SupPhase.workloadExited := by simp [supStep, hp, hx]
    rw [hs]
    have h5 : supRun sys (n + 1) SupPhase.workloadExited
        = supRun sys n SupPhase.parked := rfl
    rw [h5]
    exact supRun_parked sys n
  · have hs : supStep sys (SupPhase.bridgeStarted (sys.forkPid NODE_BIN))
        = SupPhase.parked := by simp [supStep, hp]
    rw [hs]
    exact supRun_parked sys (n + 1)

lemma supRun_reach_of_nofork (sys : Sys) (n : Nat)
    (hf : sys.forkPid NODE_BIN ≤ 0) :
    supRun sys (n + 5) SupPhase.notStarted = SupPhase.parked := by
  have h4 : supRun sys (n + 5) SupPhase.notStarted
      = supRun sys (n + 1)
          (supStep sys (SupPhase.bridgeStarted (sys.forkPid NODE_BIN))) := rfl
  rw [h4]
  have hp : ¬ sys.forkPid NODE_BIN > 0 := not_lt.2 hf
  have hs : supStep sys (SupPhase.bridgeStarted (sys.forkPid NODE_BIN))
      = SupPhase.parked := by simp [supStep, hp]
  rw [hs]
  exact supRun_parked sys (n + 1)

lemma waiting_forever (n : Nat) :
    supRun workloadForeverSys n SupPhase.waitingWorkload
      = SupPhase.waitingWorkload := by
  induction n with
  | zero => rfl
  | succ n ih => exact ih

lemma workload_forever_never_parked (n : Nat) :
    supRun workloadForeverSys n SupPhase.notStarted ≠ SupPhase.parked := by
  match n with
  | 0 => decide
  | 1 => decide
  | 2 => decide
  | 3 => decide
  | m + 4 =>
      have h : supRun workloadForeverSys (m + 4) SupPhase.notStarted
          = supRun workloadForeverSys m SupPhase.waitingWorkload := rfl
      rw [h, waiting_forever m]
      decide

end GuestInit

namespace GuestInit

/-- C1 (counterexample): with the overlay device present, both mounts
succeeding and `pivot_root` failing, `attempt` returns `Skipped` and
restores the mount table, but the filesystem state is not byte-for-byte
identical to the initial state: the directories created by the attempt
(the mount points, the upper/work layers, the oldroot anchor) remain. -/
theorem pivot_fail_state_counterexample :
    (attempt pivotFailSys vdbWorld).1 = TransitionOutcome.skipped
    ∧ (attempt pivotFailSys vdbWorld).2.mounts = vdbWorld.mounts
    ∧ fsState (attempt pivotFailSys vdbWorld).2 ≠ fsState vdbWorld := by
  decide

/-- C1 (amended): if the overlay device is found, the overlay-disk mount
and the union mount both succeed and the root switch (`pivot_root`) fails,
then `attempt` unmounts the merged-root union mount and then the staging
mount (the last two syscalls, in that order), returns `Skipped`, and the
mount table at return equals the mount table at entry.  (Directories
created during the attempt may remain, so the full filesystem state need
not be byte-for-byte identical — see the counterexample.) -/
theorem pivot_fail_unwinds_mounts (sys : Sys) (w : World)
    (hdev : should_use_overlay w = true)
    (h1 : sys.mountOk OVERLAY_DEV OVERLAY_MNT "ext4" 0 "" = true)
    (h2 : sys.mountOk "overlay" MERGED_ROOT "overlay" 0 overlay_opts = true)
    (hp : sys.pivotOk = false) :
    (attempt sys w).1 = TransitionOutcome.skipped
    ∧ (attempt sys w).2.mounts = w.mounts
    ∧ (attempt sys w).2.events =
        Event.unmounted OVERLAY_MNT :: Event.unmounted MERGED_ROOT ::
        Event.pivoted MERGED_ROOT oldroot_path ::
        Event.mounted "overlay" MERGED_ROOT "overlay" 0 overlay_opts ::
        Event.mounted OVERLAY_DEV OVERLAY_MNT "ext4" 0 "" :: w.events := by
  refine ⟨?_, ?_, ?_⟩ <;>
    simp [attempt, hdev, setup_overlay, h1, h2, hp,
      mount_snd_mounts_true, mount_snd_mounts_false, removeMount]

/-- C1 (witness): the amended theorem evaluated on the concrete oracle on
which only the pivot fails, starting from the world holding only the
overlay device. -/
theorem pivot_fail_unwinds_mounts_witness :
    (should_use_overlay vdbWorld = true
     ∧ pivotFailSys.mountOk OVERLAY_DEV OVERLAY_MNT "ext4" 0 "" = true
     ∧ pivotFailSys.mountOk "overlay" MERGED_ROOT "overlay" 0 overlay_opts = true
     ∧ pivotFailSys.pivotOk = false)
    ∧ ((attempt pivotFailSys vdbWorld).1 = TransitionOutcome.skipped
       ∧ (attempt pivotFailSys vdbWorld).2.mounts = vdbWorld.mounts) :=
  ⟨⟨by decide, rfl, rfl, rfl⟩,
   ⟨(pivot_fail_unwinds_mounts pivotFailSys vdbWorld (by decide) rfl rfl rfl).1,
    (pivot_fail_unwinds_mounts pivotFailSys vdbWorld (by decide) rfl rfl rfl).2.1⟩⟩

/-- C2: when the overlay block device does not exist, the overlay
transition returns `Skipped` immediately and the world — in particular
the mount table — is returned unchanged: no mounts added, none removed. -/
theorem no_device_attempt_identity (sys : Sys) (w : World)
    (h : should_use_overlay w = false) :
    attempt sys w = (TransitionOutcome.skipped, w) := by
  simp [attempt, h]

/-- C2 (witness): evaluated on the empty world, which holds no overlay
device. -/
theorem no_device_attempt_identity_witness :
    should_use_overlay emptyWorld = false
    ∧ attempt allOk emptyWorld = (TransitionOutcome.skipped, emptyWorld) :=
  ⟨by decide, no_device_attempt_identity allOk emptyWorld (by decide)⟩

/-- C3 (counterexample): with no overlay device, the transition yields
`Skipped` but the boot sequence issues no syscall at all in its overlay
phase — in particular no read-write remount of the root is attempted,
contradicting the claim that every `Skipped` outcome is followed by a
remount attempt. -/
theorem no_device_no_remount_counterexample :
    (attempt allOk emptyWorld).1 = TransitionOutcome.skipped
    ∧ (overlay_phase allOk emptyWorld).events = []
    ∧ Event.mounted "" "/" "" MS_REMOUNT "" ∉ (overlay_phase allOk emptyWorld).events := by
  decide

/-- C3 (amended): the read-write remount of the existing root is attempted
exactly when the overlay device was found and `setup_overlay` failed; a
failure of that remount only adds a log line (the boot continues); when no
overlay device exists, the overlay phase issues no syscall at all. -/
theorem remount_rw_only_after_failed_setup (sys : Sys) (w : World)
    (hdev : should_use_overlay w = true)
    (hfail : (setup_overlay sys w).1 = false) :
    Event.mounted "" "/" "" MS_REMOUNT "" ∈ (overlay_phase sys w).events
    ∧ (sys.mountOk "" "/" "" MS_REMOUNT "" = false →
        "[init] remount rw failed (continuing anyway)" ∈ (overlay_phase sys w).log)
    ∧ (∀ w' : World, should_use_overlay w' = false →
        (overlay_phase sys w').events = w'.events) := by
  refine ⟨?_, ?_, ?_⟩
  · by_cases hr : sys.mountOk "" "/" "" MS_REMOUNT "" <;>
      simp [overlay_phase, hdev, hfail, hr]
  · intro hr
    simp [overlay_phase, hdev, hfail, hr]
  · intro w' h
    simp [overlay_phase, h]

/-- C3 (witness): the amended theorem evaluated on the oracle on which
the pivot fails (so setup fails), starting from the world holding the
overlay device. -/
theorem remount_rw_only_after_failed_setup_witness :
    (should_use_overlay vdbWorld = true
     ∧ (setup_overlay pivotFailSys vdbWorld).1 = false)
    ∧ Event.mounted "" "/" "" MS_REMOUNT ""
        ∈ (overlay_phase pivotFailSys vdbWorld).events :=
  ⟨⟨by decide, by decide⟩,
   (remount_rw_only_after_failed_setup pivotFailSys vdbWorld
     (by decide) (by decide)).1⟩

/-- C4 (counterexample): when the workload binary is missing (its `execv`
fails) but `fork` succeeds, `spawn` does not return a failure indicator —
it returns the positive child pid — and the supervisor does not skip the
wait step: it waits on that handle. -/
theorem missing_workload_counterexample :
    nodeMissingSys.execOk NODE_BIN = false
    ∧ (spawn nodeMissingSys emptyWorld NODE_BIN node_argv).1 = 1
    ∧ (0 : Int) < (spawn nodeMissingSys emptyWorld NODE_BIN node_argv).1
    ∧ Event.waited 1 ∈ (start_services nodeMissingSys emptyWorld).events := by
  decide

/-- C4 (amended): a missing workload binary does not make `spawn` fail:
as long as `fork` succeeds, `spawn` returns the positive child pid, the
failure surfaces only as the child exiting with the sentinel status 127,
the supervisor waits on the workload handle, the bridge is still launched,
and the supervisor parks afterwards. -/
theorem missing_workload_fork_still_succeeds (sys : Sys) (w : World)
    (hfork : 0 < sys.forkPid NODE_BIN)
    (hexec : sys.execOk NODE_BIN = false) :
    (spawn sys w NODE_BIN node_argv).1 = sys.forkPid NODE_BIN
    ∧ child_exit_status sys NODE_BIN = 127
    ∧ Event.waited (sys.forkPid NODE_BIN) ∈ (start_services sys w).events
    ∧ Event.spawned SOCAT_BIN socat_argv (sys.forkPid SOCAT_BIN)
        ∈ (start_services sys w).events
    ∧ Event.parked ∈ (start_services sys w).events := by
  have hnf : ¬ sys.forkPid NODE_BIN < 0 := by omega
  refine ⟨?_, ?_, ?_, ?_, ?_⟩ <;>
    simp [start_services, spawn, run_wait, child_exit_status, hexec, hfork, hnf,
      apply_ite Prod.snd, apply_ite World.events, setenv]

/-- C4 (witness): the amended theorem evaluated on the oracle on which the
workload binary is missing and every fork returns pid 1. -/
theorem missing_workload_fork_still_succeeds_witness :
    (0 < nodeMissingSys.forkPid NODE_BIN
     ∧ nodeMissingSys.execOk NODE_BIN = false)
    ∧ ((spawn nodeMissingSys emptyWorld NODE_BIN node_argv).1
         = nodeMissingSys.forkPid NODE_BIN
       ∧ child_exit_status nodeMissingSys NODE_BIN = 127) :=
  ⟨⟨by decide, by decide⟩,
   ⟨(missing_workload_fork_still_succeeds nodeMissingSys emptyWorld
       (by decide) (by decide)).1,
    (missing_workload_fork_still_succeeds nodeMissingSys emptyWorld
       (by decide) (by decide)).2.1⟩⟩

/-- C5: if the overlay-disk mount at the staging path succeeds and the
union (overlayfs) mount at the merged-root path fails, `attempt` unmounts
the staging mount before returning `Skipped` and restores the mount table
exactly — no dangling mount remains from the attempt. -/
theorem union_fail_unmounts_staging (sys : Sys) (w : World)
    (hdev : should_use_overlay w = true)
    (h1 : sys.mountOk OVERLAY_DEV OVERLAY_MNT "ext4" 0 "" = true)
    (h2 : sys.mountOk "overlay" MERGED_ROOT "overlay" 0 overlay_opts = false) :
    (attempt sys w).1 = TransitionOutcome.skipped
    ∧ (attempt sys w).2.mounts = w.mounts
    ∧ (attempt sys w).2.events =
        Event.unmounted OVERLAY_MNT ::
        Event.mounted "overlay" MERGED_ROOT "overlay" 0 overlay_opts ::
        Event.mounted OVERLAY_DEV OVERLAY_MNT "ext4" 0 "" :: w.events := by
  refine ⟨?_, ?_, ?_⟩ <;>
    simp [attempt, hdev, setup_overlay, h1, h2,
      mount_snd_mounts_true, mount_snd_mounts_false, removeMount]

/-- C5 (witness): evaluated on the oracle on which exactly the overlayfs
union mount fails. -/
theorem union_fail_unmounts_staging_witness :
    (should_use_overlay vdbWorld = true
     ∧ unionFailSys.mountOk OVERLAY_DEV OVERLAY_MNT "ext4" 0 "" = true
     ∧ unionFailSys.mountOk "overlay" MERGED_ROOT "overlay" 0 overlay_opts = false)
    ∧ ((attempt unionFailSys vdbWorld).1 = TransitionOutcome.skipped
       ∧ (attempt unionFailSys vdbWorld).2.mounts = vdbWorld.mounts) :=
  ⟨⟨by decide, by decide, by decide⟩,
   ⟨(union_fail_unmounts_staging unionFailSys vdbWorld
       (by decide) (by decide) (by decide)).1,
    (union_fail_unmounts_staging unionFailSys vdbWorld
       (by decide) (by decide) (by decide)).2.1⟩⟩

/-- C6: whenever the union mount is attempted (i.e. the overlay-disk mount
succeeded), the options string passed to the overlayfs mount is exactly
lowerdir=/,upperdir=/mnt/overlay/upper,workdir=/mnt/overlay/work — the
lower layer is the current process root and the upper and work directories
are the two subdirectories of the staging mount. -/
theorem union_mount_opts_shape (sys : Sys) (w : World)
    (h1 : sys.mountOk OVERLAY_DEV OVERLAY_MNT "ext4" 0 "" = true) :
    Event.mounted "overlay" MERGED_ROOT "overlay" 0 overlay_opts
      ∈ (setup_overlay sys w).2.events
    ∧ overlay_opts
      = "lowerdir=/,upperdir=/mnt/overlay/upper,workdir=/mnt/overlay/work"
    ∧ upper_dir = OVERLAY_MNT ++ "/upper"
    ∧ work_dir = OVERLAY_MNT ++ "/work" := by
  refine ⟨?_, by decide, rfl, rfl⟩
  by_cases h2 : sys.mountOk "overlay" MERGED_ROOT "overlay" 0 overlay_opts
  · by_cases hp : sys.pivotOk <;>
      simp [setup_overlay, h1, h2, hp, apply_ite World.events]
  · simp [setup_overlay, h1, h2]

/-- C6 (witness): evaluated on the all-succeeding oracle. -/
theorem union_mount_opts_shape_witness :
    allOk.mountOk OVERLAY_DEV OVERLAY_MNT "ext4" 0 "" = true
    ∧ Event.mounted "overlay" MERGED_ROOT "overlay" 0 overlay_opts
        ∈ (setup_overlay allOk emptyWorld).2.events :=
  ⟨rfl, (union_mount_opts_shape allOk emptyWorld rfl).1⟩

/-- C7: for every child created by `spawn`, if the `execv` of the command
fails, the child terminates with the fixed sentinel exit status 127; in
particular `run_wait` observes status 127 for such a child. -/
theorem exec_fail_child_exits_127 (sys : Sys) (path : String) (w : World)
    (argv : List String) (hexec : sys.execOk path = false)
    (hfork : ¬ sys.forkPid path < 0) :
    child_exit_status sys path = 127
    ∧ (run_wait sys w path argv).1 = 127 := by
  constructor
  · simp [child_exit_status, hexec]
  · simp [run_wait, spawn, hfork, child_exit_status, hexec]

/-- C7 (witness): evaluated on the oracle on which the workload binary is
missing. -/
theorem exec_fail_child_exits_127_witness :
    (nodeMissingSys.execOk NODE_BIN = false
     ∧ ¬ nodeMissingSys.forkPid NODE_BIN < 0)
    ∧ (child_exit_status nodeMissingSys NODE_BIN = 127
       ∧ (run_wait nodeMissingSys emptyWorld NODE_BIN node_argv).1 = 127) :=
  ⟨⟨by decide, by decide⟩,
   exec_fail_child_exits_127 nodeMissingSys NODE_BIN emptyWorld node_argv
     (by decide) (by decide)⟩

/-- C8: directory creation is idempotent — if a first `ensure_dir` call
created the directory, a second call on the same path returns the world
completely unchanged: nothing is added and nothing is logged. -/
theorem ensure_dir_idempotent (sys : Sys) (w : World) (p : String) (m : Nat)
    (h1 : p ∉ w.dirs) (h2 : sys.mkdirOk p = true) :
    ensure_dir sys (ensure_dir sys w p m) p m = ensure_dir sys w p m := by
  simp [ensure_dir, h1, h2]

/-- C8 (witness): evaluated on the empty world at path /mnt. -/
theorem ensure_dir_idempotent_witness :
    ("/mnt" ∉ emptyWorld.dirs ∧ allOk.mkdirOk "/mnt" = true)
    ∧ ensure_dir allOk (ensure_dir allOk emptyWorld "/mnt" 0o755) "/mnt" 0o755
        = ensure_dir allOk emptyWorld "/mnt" 0o755 :=
  ⟨⟨by decide, rfl⟩,
   ensure_dir_idempotent allOk emptyWorld "/mnt" 0o755 (by decide) rfl⟩

/-- C9 (counterexample): if the workload launches (fork succeeds) and
never terminates — the normal case for a server workload — the supervisor
blocks forever inside the wait step: it enters the `waitingWorkload` phase
after four steps, that phase is absorbing, and the terminal parking loop
is never reached.  (The process still never exits.) -/
theorem workload_forever_never_parks_counterexample :
    0 < workloadForeverSys.forkPid NODE_BIN
    ∧ supRun workloadForeverSys 4 SupPhase.notStarted = SupPhase.waitingWorkload
    ∧ supStep workloadForeverSys SupPhase.waitingWorkload = SupPhase.waitingWorkload
    ∧ ¬ reaches workloadForeverSys SupPhase.parked := by
  refine ⟨by decide, by decide, rfl, ?_⟩
  rintro ⟨n, hn⟩
  exact workload_forever_never_parked n hn

/-- C9 (amended): the PID-1 supervisor never exits: no run of the
control-flow machine of `start_services` ever reaches the `exited` phase.
Control reaches the terminal parking loop — which steps to itself forever —
whenever the workload process eventually terminates, and also whenever the
workload fork failed (the wait is skipped); if the workload launches and
never terminates, the supervisor instead stays blocked in the wait step
(see the counterexample), and still never exits. -/
theorem supervisor_never_exits (sys : Sys) (n : Nat) :
    (sys.workloadExits = true →
      supRun sys (n + 5) SupPhase.notStarted = SupPhase.parked)
    ∧ (sys.forkPid NODE_BIN ≤ 0 →
      supRun sys (n + 5) SupPhase.notStarted = SupPhase.parked)
    ∧ supStep sys SupPhase.parked = SupPhase.parked
    ∧ supRun sys n SupPhase.notStarted ≠ SupPhase.exited :=
  ⟨supRun_reach_of_exits sys n, supRun_reach_of_nofork sys n, rfl,
   supRun_ne_exited sys n _ (by simp)⟩

/-- C9 (witness): evaluated on the all-succeeding oracle, on which the
workload terminates, at n = 0. -/
theorem supervisor_never_exits_witness :
    allOk.workloadExits = true
    ∧ supRun allOk (0 + 5) SupPhase.notStarted = SupPhase.parked
    ∧ supStep allOk SupPhase.parked = SupPhase.parked
    ∧ supRun allOk 0 SupPhase.notStarted ≠ SupPhase.exited :=
  ⟨rfl, (supervisor_never_exits allOk 0).1 rfl,
   (supervisor_never_exits allOk 0).2.2.1,
   (supervisor_never_exits allOk 0).2.2.2⟩

/-- C10: when the root switch succeeds and the subsequent chdir to the new
root fails, the failure is only logged: the transition still issues the
lazy detach of the relocated old root and the best-effort removal of the
anchor directory, and returns `Applied`. -/
theorem chdir_fail_still_applied (sys : Sys) (w : World)
    (hdev : should_use_overlay w = true)
    (h1 : sys.mountOk OVERLAY_DEV OVERLAY_MNT "ext4" 0 "" = true)
    (h2 : sys.mountOk "overlay" MERGED_ROOT "overlay" 0 overlay_opts = true)
    (hp : sys.pivotOk = true) (hc : sys.chdirOk "/" = false) :
    (attempt sys w).1 = TransitionOutcome.applied
    ∧ Event.detached "/oldroot" ∈ (attempt sys w).2.events
    ∧ Event.removedDir "/oldroot" ∈ (attempt sys w).2.events
    ∧ "[init] chdir(/) failed" ∈ (attempt sys w).2.log := by
  by_cases hd : sys.detachOk <;>
    refine ⟨?_, ?_, ?_, ?_⟩ <;>
      simp [attempt, hdev, setup_overlay, h1, h2, hp, hc, hd]

/-- C10 (witness): evaluated on the oracle on which only chdir fails. -/
theorem chdir_fail_still_applied_witness :
    (should_use_overlay vdbWorld = true
     ∧ chdirFailSys.mountOk OVERLAY_DEV OVERLAY_MNT "ext4" 0 "" = true
     ∧ chdirFailSys.mountOk "overlay" MERGED_ROOT "overlay" 0 overlay_opts = true
     ∧ chdirFailSys.pivotOk = true
     ∧ chdirFailSys.chdirOk "/" = false)
    ∧ ((attempt chdirFailSys vdbWorld).1 = TransitionOutcome.applied
       ∧ Event.detached "/oldroot" ∈ (attempt chdirFailSys vdbWorld).2.events) :=
  ⟨⟨by decide, rfl, rfl, rfl, by decide⟩,
   ⟨(chdir_fail_still_applied chdirFailSys vdbWorld
       (by decide) rfl rfl rfl (by decide)).1,
    (chdir_fail_still_applied chdirFailSys vdbWorld
       (by decide) rfl rfl rfl (by decide)).2.1⟩⟩

end GuestInit
